import Mathlib

/-!
Verification of the SignalHire MCP server's asynchronous enrichment
orchestration pipeline against its specification.

The repository sources at hand are `src/server.py` (the dispatch surface),
`src/models/person_callback.py` (the callback payload model) and the test
suite.  The orchestration core (`lib/signalhire_client.py`,
`lib/callback_server.py`, `lib/contact_cache.py`) is not among the sources,
so the components it contains — BatchChunker, RequestCorrelator,
ScrollCursorManager, RateBudget, CallbackIngester — are modelled from the
specification, as flagged on each definition.  Everything taken from
`src/server.py` or `src/models/person_callback.py` cites its lines.
-/

namespace SignalHire

/-! ## BatchChunker -/

/-- Modelled from the spec: the hard submission-size ceiling of the
BatchChunker (`lib/signalhire_client.py`, absent from the sources); every
chunk holds at most 100 identifiers. -/
def chunkLimit : Nat := 100

/-- Modelled from the spec: `BatchChunker.split` (`lib/signalhire_client.py`,
absent from the sources) splits an identifier list into successive chunks of
at most `chunkLimit` identifiers, preserving the original order. -/
def split (l : List String) : List (List String) :=
  if h : l = [] then []
  else l.take chunkLimit :: split (l.drop chunkLimit)
termination_by l.length
decreasing_by
  simp only [List.length_drop]
  exact Nat.sub_lt (List.length_pos.mpr h) (by norm_num [chunkLimit])

/-! ## RequestCorrelator -/

/-- The per-item terminal statuses of a callback delivery, from
`src/models/person_callback.py` (`PersonCallbackItem.status`). -/
inductive CallbackStatus
  | success
  | failed
  | credits_are_over
  | timeout_exceeded
  | duplicate_query
  deriving DecidableEq, Repr

/-- Modelled from the spec: the `PendingRequest` bookkeeping entry owned by
the RequestCorrelator (`lib`, absent from the sources): the request id, the
ordered submitted identifiers, and the results recorded so far keyed by
item. -/
structure PendingRequest where
  request_id : String
  submitted_identifiers : List String
  results : List (String × CallbackStatus)
  deriving DecidableEq, Repr

/-- Modelled from the spec: the correlator's process-wide table of pending
requests. -/
structure CorrelatorState where
  pending : List PendingRequest
  deriving DecidableEq, Repr

/-- The request statuses reported by `status(request_id)`. -/
inductive ReqStatus
  | processing
  | completed
  | failed
  | unknown
  deriving DecidableEq, Repr

/-- Whether a terminal result has been recorded for `item`. -/
def PendingRequest.hasResult (pr : PendingRequest) (item : String) : Bool :=
  pr.results.any (fun r => r.1 == item)

/-- Whether every submitted identifier has a recorded result. -/
def PendingRequest.isComplete (pr : PendingRequest) : Bool :=
  pr.submitted_identifiers.all pr.hasResult

/-- How many of the submitted identifiers have a recorded result. -/
def PendingRequest.resolvedCount (pr : PendingRequest) : Nat :=
  (pr.submitted_identifiers.filter pr.hasResult).length

/-- Modelled from the spec: `RequestCorrelator.status` — `completed` once
every submitted identifier has a recorded result, `processing` while any is
missing, `unknown` for an unregistered id. -/
def statusOf (s : CorrelatorState) (rid : String) : ReqStatus :=
  match s.pending.find? (fun p => p.request_id == rid) with
  | none => .unknown
  | some pr => if pr.isComplete then .completed else .processing

/-- Modelled from the spec: the effect of `resolve(request_id, item, result)`
on one pending entry — record the result once per (request_id, item) pair;
a duplicate delivery for an already-recorded item is ignored, as is an item
that was never submitted under this request. -/
def resolveOne (rid item : String) (res : CallbackStatus) (pr : PendingRequest) :
    PendingRequest :=
  if pr.request_id == rid then
    if pr.hasResult item then pr
    else if pr.submitted_identifiers.contains item then
      { pr with results := pr.results ++ [(item, res)] }
    else pr
  else pr

/-- Modelled from the spec: `RequestCorrelator.resolve` applied to the whole
correlator state. -/
def resolve (s : CorrelatorState) (rid item : String) (res : CallbackStatus) :
    CorrelatorState :=
  ⟨s.pending.map (resolveOne rid item res)⟩

/-- Outcome of `RequestCorrelator.register`. -/
inductive RegisterOutcome
  | ok (s : CorrelatorState)
  | duplicateRequestID
  deriving DecidableEq, Repr

/-- Modelled from the spec: `register(request_id, submitted_identifiers)`
fails with DuplicateRequestID when the id is already pending and never
overwrites existing pending state. -/
def register (s : CorrelatorState) (rid : String) (ids : List String) :
    RegisterOutcome :=
  if s.pending.any (fun p => p.request_id == rid) then .duplicateRequestID
  else .ok ⟨s.pending ++ [⟨rid, ids, []⟩]⟩

/-- The request ids currently pending. -/
def requestIds (s : CorrelatorState) : List String :=
  s.pending.map (fun p => p.request_id)

/-- Modelled from the spec: the correlator states reachable from the empty
table through `register` and `resolve`. -/
inductive CorrReachable : CorrelatorState → Prop
  | init : CorrReachable ⟨[]⟩
  | registered {s s' : CorrelatorState} {rid : String} {ids : List String} :
      CorrReachable s → register s rid ids = .ok s' → CorrReachable s'
  | resolved {s : CorrelatorState} (rid item : String) (res : CallbackStatus) :
      CorrReachable s → CorrReachable (resolve s rid item res)

/-! ## ScrollCursorManager -/

/-- The cursor TTL in seconds, fixed at 15 by the spec (and surfaced in the
`scroll_search_results` docstring of `src/server.py`, lines 306-337). -/
def scrollTTL : Nat := 15

/-- Modelled from the spec: a `ScrollCursor` record. -/
structure ScrollCursor where
  scroll_id : String
  request_id : String
  issued_at : Nat
  ttl_seconds : Nat
  deriving DecidableEq, Repr

/-- Modelled from the spec: the manager's table of live (not yet redeemed)
cursors. -/
structure ScrollState where
  cursors : List ScrollCursor
  deriving DecidableEq, Repr

/-- Outcome of `ScrollCursorManager.redeem`. -/
inductive RedeemOutcome
  | ok (request_id : String) (s : ScrollState)
  | cursorExpired
  | cursorUnknown
  deriving DecidableEq, Repr

/-- Modelled from the spec: `issue(request_id)` creates a cursor valid for
`scrollTTL` seconds from `now`. -/
def issue (s : ScrollState) (sid rid : String) (now : Nat) : ScrollState :=
  ⟨s.cursors ++ [⟨sid, rid, now, scrollTTL⟩]⟩

/-- Remove the cursor `sid` from the table (redeeming consumes it). -/
def consume (s : ScrollState) (sid : String) : ScrollState :=
  ⟨s.cursors.filter (fun c => !(c.scroll_id == sid))⟩

/-- Modelled from the spec: `redeem(scroll_id)` — an unknown (or already
consumed) cursor fails with CursorUnknown, a live cursor older than its TTL
fails with CursorExpired, and a live in-TTL cursor succeeds exactly once,
being consumed by the redemption. -/
def redeem (s : ScrollState) (sid : String) (now : Nat) : RedeemOutcome :=
  match s.cursors.find? (fun c => c.scroll_id == sid) with
  | none => .cursorUnknown
  | some c =>
    if c.issued_at + c.ttl_seconds < now then .cursorExpired
    else .ok c.request_id (consume s sid)

/-! ## RateBudget -/

/-- The sliding-window throughput ceiling: 600 items per rolling 60-second
window (also displayed by `get_rate_limits`, `src/server.py` lines 633-645). -/
def windowCeiling : Nat := 600

/-- The two daily credit pools. -/
inductive Pool
  | withContact
  | withoutContact
  deriving DecidableEq, Repr

/-- Modelled from the spec: the process-wide `RateState`. -/
structure RateState where
  items_in_window : Nat
  with_contact_remaining : Nat
  without_contact_remaining : Nat
  concurrent_searches : Nat
  deriving DecidableEq, Repr

/-- Remaining daily credits of a pool. -/
def poolRemaining (s : RateState) : Pool → Nat
  | .withContact => s.with_contact_remaining
  | .withoutContact => s.without_contact_remaining

/-- Outcome of `RateBudget.reserve`. -/
inductive ReserveOutcome
  | granted (s : RateState)
  | deferred (retry_after : Nat)
  | rejected (reason : String)
  deriving DecidableEq, Repr

/-- Modelled from the spec: `reserve(item_count, pool)` — an item count that
would push the rolling window above `windowCeiling` is deferred with backoff
guidance (soft, retryable); insufficient daily credits are a hard rejection;
otherwise the reservation is granted and counted against the window and the
pool. -/
def reserve (s : RateState) (item_count : Nat) (pool : Pool) : ReserveOutcome :=
  if windowCeiling < s.items_in_window + item_count then .deferred 60
  else if poolRemaining s pool < item_count then
    .rejected "insufficient daily credits"
  else
    .granted
      { s with
        items_in_window := s.items_in_window + item_count
        with_contact_remaining :=
          if pool = .withContact then s.with_contact_remaining - item_count
          else s.with_contact_remaining
        without_contact_remaining :=
          if pool = .withoutContact then s.without_contact_remaining - item_count
          else s.without_contact_remaining }

/-- Modelled from the spec: the 60-second window rolling over. -/
def rollWindow (s : RateState) : RateState :=
  { s with items_in_window := 0 }

/-- Modelled from the spec: the rate states reachable from a fresh window
through granted reservations and window rollovers. -/
inductive RateReachable : RateState → Prop
  | init (wc woc : Nat) : RateReachable ⟨0, wc, woc, 0⟩
  | granted {s s' : RateState} {n : Nat} {p : Pool} :
      RateReachable s → reserve s n p = .granted s' → RateReachable s'
  | rolled {s : RateState} : RateReachable s → RateReachable (rollWindow s)

/-! ## CallbackIngester -/

/-- The closed set of accepted per-item status strings, from
`src/models/person_callback.py` lines 78-88 (the `Literal` type of
`PersonCallbackItem.status`). -/
def validStatuses : List String :=
  ["success", "failed", "credits_are_over", "timeout_exceeded", "duplicate_query"]

/-- One entry of an inbound callback delivery, prior to validation: the raw
status string, the original item, and the optional candidate payload (kept
opaque). -/
structure CallbackEntry where
  status : String
  item : String
  candidate : Option String
  deriving DecidableEq, Repr

/-- The per-batch report of `CallbackIngester.ingest`. -/
structure IngestReport where
  accepted : List CallbackEntry
  rejected : List CallbackEntry
  deriving DecidableEq, Repr

/-- Modelled from the spec: `CallbackIngester.ingest` (`lib/callback_server.py`,
absent from the sources) validates each entry's status against the closed
set from `src/models/person_callback.py`; an unknown status rejects only
that entry, every other entry is still accepted, and the batch as a whole
never fails. -/
def ingest (items : List CallbackEntry) : IngestReport :=
  ⟨items.filter (fun e => validStatuses.contains e.status),
   items.filter (fun e => !(validStatuses.contains e.status))⟩

/-! ## src/server.py — the cached-contact resource handler -/

/-- The names bound at module level in `src/server.py`: the imports (lines
10-34), the module constants (lines 21-22), `AppState`/`state` (lines 44-50),
the helpers (lines 52, 68, 120), and the decorated tool, resource and prompt
functions.  Note that neither `cache` nor `client` is among them — only
`state.cache` and `state.client` exist. -/
def serverGlobals : List String :=
  ["asyncio", "os", "asynccontextmanager", "Path", "Annotated",
   "load_dotenv", "FastMCP", "Context", "Field", "SERVER_DIR", "ENV_FILE",
   "SignalHireClient", "CallbackServer", "get_server", "ContactCache",
   "load_config", "PersonCallbackItem", "AppState", "state",
   "get_callback_url", "lifespan", "mcp",
   "search_prospects", "reveal_contact", "batch_reveal_contacts",
   "check_credits", "scroll_search_results", "search_and_enrich",
   "enrich_linkedin_profile", "validate_email", "export_results",
   "get_search_suggestions", "get_request_status", "list_requests",
   "clear_cache",
   "get_cached_contact", "get_cache_stats", "get_recent_searches",
   "get_credits_resource", "get_rate_limits", "get_requests_history",
   "get_account_info",
   "enrich_linkedin_profile_prompt", "bulk_enrich_contacts_prompt",
   "search_candidates_by_criteria_prompt", "search_and_enrich_workflow_prompt",
   "manage_credits_prompt", "validate_bulk_emails_prompt",
   "export_search_results_prompt", "troubleshoot_webhook_prompt"]

/-- Outcome of a resource read. -/
inductive ResourceOutcome
  | ok (contact : String)
  | nameErr (missing : String)
  | valueErr (msg : String)
  deriving DecidableEq, Repr

/-- From `src/server.py` lines 597-603: the `signalhire://contacts/{uid}`
handler's first statement is `contact = cache.get(uid)`, which evaluates the
bare name `cache` in the module globals; Python raises NameError when the
name is unbound.  `stateCache` is the contents of the initialized
`state.cache` (what the tests patch); were `cache` a bound alias of it, the
handler would return the cached candidate or a not-found ValueError. -/
def get_cached_contact (stateCache : String → Option String) (uid : String) :
    ResourceOutcome :=
  if serverGlobals.contains "cache" then
    match stateCache uid with
    | some c => .ok c
    | none => .valueErr ("Contact " ++ uid ++ " not found in cache")
  else .nameErr "cache"

/-! ## src/server.py — check_credits, reveal_contact, enrich_linkedin_profile -/

/-- A synchronous response of the remote client, as consumed by the tools in
`src/server.py` (`response.success`, `response.data`, `response.error`). -/
structure APIResponse (α : Type) where
  success : Bool
  data : α
  error : String
  deriving DecidableEq, Repr

/-- The payload consulted by `check_credits`: `response.data.get("credits", 0)`
(`src/server.py` line 297), an optional number defaulting to 0. -/
structure CreditsPayload where
  credits : Option Int
  deriving DecidableEq, Repr

/-- `response.data.get("credits", 0)` from `src/server.py` line 297. -/
def creditsOf (d : CreditsPayload) : Int :=
  d.credits.getD 0

/-- The errors the modelled tools raise, one constructor per `raise
ValueError` site of `src/server.py` (lines 295, 419, 228). -/
inductive ToolError
  | creditsCheckFailed (err : String)
  | insufficientCredits
  | revealFailed (err : String)
  deriving DecidableEq, Repr

/-- The dict returned by `check_credits` (`src/server.py` lines 300-303). -/
structure CreditsResult where
  credits : Int
  type : String
  deriving DecidableEq, Repr

/-- From `src/server.py` lines 282-303: the `check_credits` tool — raises on
an unsuccessful response, otherwise reports the balance and which pool was
queried (`without_contacts=False` is the with-contact pool). -/
def check_credits (without_contacts : Bool) (resp : APIResponse CreditsPayload) :
    Except ToolError CreditsResult :=
  if resp.success then
    .ok ⟨creditsOf resp.data,
         if without_contacts then "no_contacts" else "with_contacts"⟩
  else .error (.creditsCheckFailed resp.error)

/-- The payload consulted by `reveal_contact`:
`response.data.get("request_id")` (`src/server.py` line 230). -/
structure RevealPayload where
  request_id : Option String
  deriving DecidableEq, Repr

/-- The dict returned by `reveal_contact` (`src/server.py` lines 233-239),
restricted to the fields `enrich_linkedin_profile` reads. -/
structure RevealResult where
  request_id : Option String
  status : String
  identifier : String
  deriving DecidableEq, Repr

/-- From `src/server.py` lines 205-239: the `reveal_contact` tool — raises on
an unsuccessful response, otherwise returns the request id with status
"processing". -/
def reveal_contact (identifier : String) (resp : APIResponse RevealPayload) :
    Except ToolError RevealResult :=
  if resp.success then .ok ⟨resp.data.request_id, "processing", identifier⟩
  else .error (.revealFailed resp.error)

/-- The dict returned by `enrich_linkedin_profile`
(`src/server.py` lines 424-430). -/
structure EnrichResult where
  request_id : Option String
  profile_url : String
  status : String
  credits_remaining : Int
  deriving DecidableEq, Repr

/-- From `src/server.py` lines 399-430: the `enrich_linkedin_profile` tool —
first calls `check_credits` on the with-contact pool (the
`without_contacts=False` default), raises "Insufficient credits" when the
reported balance is below 1, otherwise calls `reveal_contact` and returns
`credits_remaining = balance - 1`, computed locally before any enrichment
result arrives. -/
def enrich_linkedin_profile (linkedin_url : String)
    (creditsResp : APIResponse CreditsPayload)
    (revealResp : APIResponse RevealPayload) :
    Except ToolError EnrichResult :=
  match check_credits false creditsResp with
  | .error e => .error e
  | .ok cr =>
    if cr.credits < 1 then .error .insufficientCredits
    else
      match reveal_contact linkedin_url revealResp with
      | .error e => .error e
      | .ok r =>
        .ok ⟨r.request_id, linkedin_url, "processing", cr.credits - 1⟩

/-! ## Helper lemmas -/

theorem split_nil : split [] = [] := by
  simp [split]

theorem split_ne_nil (l : List String) (h : l ≠ []) :
    split l = l.take chunkLimit :: split (l.drop chunkLimit) := by
  rw [split]
  simp [h]

theorem split_flatten (l : List String) : (split l).flatten = l := by
  induction l using split.induct with
  | case1 => simp [split_nil]
  | case2 l h ih =>
    rw [split_ne_nil l h]
    simp [List.flatten_cons, ih, List.take_append_drop]

theorem split_chunk_le (l : List String) : ∀ c ∈ split l, c.length ≤ chunkLimit := by
  induction l using split.induct with
  | case1 => simp [split_nil]
  | case2 l h ih =>
    rw [split_ne_nil l h]
    intro c hc
    rcases List.mem_cons.mp hc with rfl | hc
    · simp [List.length_take]
    · exact ih c hc

theorem split_length (l : List String) :
    (split l).length = (l.length + (chunkLimit - 1)) / chunkLimit := by
  induction l using split.induct with
  | case1 => simp [split_nil, chunkLimit]
  | case2 l h ih =>
    rw [split_ne_nil l h, List.length_cons, ih, List.length_drop]
    have hl : 0 < l.length := List.length_pos.mpr h
    simp only [chunkLimit]
    omega

/-! ## Claim theorems -/

/-- Claim C1: for every identifier list of length n, `BatchChunker.split`
produces ceil(n/100) chunks, each of size at most 100, whose in-order
concatenation equals the input (so order is preserved and no identifier is
duplicated or dropped), and the split is deterministic given identical
input. -/
theorem C1_batch_split (l : List String) :
    (split l).length = (l.length + 99) / 100 ∧
    (∀ c ∈ split l, c.length ≤ 100) ∧
    (split l).flatten = l ∧
    (∀ l', l' = l → split l' = split l) := by
  refine ⟨?_, ?_, split_flatten l, fun l' h => by rw [h]⟩
  · simpa [chunkLimit] using split_length l
  · simpa [chunkLimit] using split_chunk_le l

/-- Witness for C1: a 250-identifier list splits into 3 chunks whose
concatenation is the input. -/
theorem C1_batch_split_witness :
    (split (List.replicate 250 "x")).length = 3 ∧
    (split (List.replicate 250 "x")).flatten = List.replicate 250 "x" := by
  constructor
  · rw [(C1_batch_split (List.replicate 250 "x")).1]
    simp only [List.length_replicate]
  · exact (C1_batch_split (List.replicate 250 "x")).2.2.1

/-- Claim C8: splitting an empty identifier list yields zero chunks (a total
no-op, not an error), and every list of between 1 and 100 identifiers yields
exactly one chunk. -/
theorem C8_split_edge_cases :
    split [] = [] ∧
    ∀ l : List String, 1 ≤ l.length → l.length ≤ 100 → (split l).length = 1 := by
  refine ⟨split_nil, fun l h1 h100 => ?_⟩
  have hl : l ≠ [] := by
    intro h
    subst h
    simp at h1
  rw [split_ne_nil l hl]
  have hdrop : l.drop chunkLimit = [] := by
    apply List.drop_eq_nil_of_le
    simpa [chunkLimit] using h100
  simp [hdrop, split_nil]

/-- Witness for C8 at the two-identifier list. -/
theorem C8_split_edge_cases_witness :
    1 ≤ (["a", "b"] : List String).length ∧ (split ["a", "b"]).length = 1 :=
  ⟨by decide, C8_split_edge_cases.2 ["a", "b"] (by decide) (by decide)⟩

theorem hasResult_iff (pr : PendingRequest) (item : String) :
    pr.hasResult item = true ↔ ∃ res, (item, res) ∈ pr.results := by
  simp only [PendingRequest.hasResult, List.any_eq_true]
  constructor
  · rintro ⟨⟨i, res⟩, hmem, heq⟩
    simp only [beq_iff_eq] at heq
    subst heq
    exact ⟨res, hmem⟩
  · rintro ⟨res, hmem⟩
    exact ⟨(item, res), hmem, by simp⟩

theorem isComplete_iff (pr : PendingRequest) :
    pr.isComplete = true ↔
      ∀ i ∈ pr.submitted_identifiers, ∃ res, (i, res) ∈ pr.results := by
  simp only [PendingRequest.isComplete, List.all_eq_true]
  constructor
  · intro h i hi
    exact (hasResult_iff pr i).mp (h i hi)
  · intro h i hi
    exact (hasResult_iff pr i).mpr (h i hi)

/-- Claim C2: for a registered request, `status` is `completed` exactly when
every submitted identifier has a recorded terminal result, and a state in
which exactly k of the n identifiers have recorded results, 0 < k < n,
yields `processing`. -/
theorem C2_completed_iff (s : CorrelatorState) (rid : String) (pr : PendingRequest)
    (hfind : s.pending.find? (fun p => p.request_id == rid) = some pr) :
    (statusOf s rid = .completed ↔
        ∀ i ∈ pr.submitted_identifiers, ∃ res, (i, res) ∈ pr.results) ∧
    (∀ k, pr.resolvedCount = k → 0 < k → k < pr.submitted_identifiers.length →
        statusOf s rid = .processing) := by
  simp only [statusOf, hfind]
  constructor
  · constructor
    · intro h
      by_cases hc : pr.isComplete = true
      · exact (isComplete_iff pr).mp hc
      · simp [hc] at h
    · intro h
      have hc : pr.isComplete = true := (isComplete_iff pr).mpr h
      simp [hc]
  · intro k hk h0 hlt
    by_cases hc : pr.isComplete = true
    · exfalso
      have hfil : pr.submitted_identifiers.filter pr.hasResult
          = pr.submitted_identifiers := by
        apply List.filter_eq_self.mpr
        intro a ha
        exact (List.all_eq_true.mp hc) a ha
      rw [PendingRequest.resolvedCount, hfil] at hk
      omega
    · simp [hc]

/-- Witness for C2: one of two identifiers resolved keeps the request
`processing`. -/
theorem C2_completed_iff_witness :
    statusOf ⟨[⟨"r1", ["a", "b"], [("a", CallbackStatus.success)]⟩]⟩ "r1"
      = .processing :=
  (C2_completed_iff ⟨[⟨"r1", ["a", "b"], [("a", CallbackStatus.success)]⟩]⟩ "r1"
      ⟨"r1", ["a", "b"], [("a", CallbackStatus.success)]⟩ (by decide)).2
    1 (by decide) (by decide) (by decide)

theorem resolveOne_of_hasResult (rid item : String) (res : CallbackStatus)
    (pr : PendingRequest) (h : pr.hasResult item = true) :
    resolveOne rid item res pr = pr := by
  unfold resolveOne
  by_cases h1 : (pr.request_id == rid) = true
  · simp [h1, h]
  · simp [h1]

theorem resolveOne_idem (rid item : String) (res : CallbackStatus)
    (pr : PendingRequest) :
    resolveOne rid item res (resolveOne rid item res pr)
      = resolveOne rid item res pr := by
  by_cases h1 : (pr.request_id == rid) = true
  · by_cases h2 : pr.hasResult item = true
    · rw [resolveOne_of_hasResult rid item res pr h2,
        resolveOne_of_hasResult rid item res pr h2]
    · by_cases h3 : item ∈ pr.submitted_identifiers
      · have hstep : resolveOne rid item res pr
            = { pr with results := pr.results ++ [(item, res)] } := by
          unfold resolveOne
          simp [h1, h2, h3]
        rw [hstep]
        apply resolveOne_of_hasResult
        simp [PendingRequest.hasResult, List.any_append]
      · have hstep : resolveOne rid item res pr = pr := by
          unfold resolveOne
          simp [h1, h2, h3]
        rw [hstep, hstep]
  · have hstep : resolveOne rid item res pr = pr := by
      unfold resolveOne
      simp [h1]
    rw [hstep, hstep]

/-- Claim C4: `RequestCorrelator.resolve` is idempotent — a second call with
identical (request_id, item, result) leaves the state unchanged and is a
no-op (a total function, so no error is visible to the caller). -/
theorem C4_resolve_idempotent (s : CorrelatorState) (rid item : String)
    (res : CallbackStatus) :
    resolve (resolve s rid item res) rid item res = resolve s rid item res := by
  obtain ⟨l⟩ := s
  simp only [resolve, List.map_map]
  congr 1
  induction l with
  | nil => rfl
  | cons pr l ih =>
    simp only [List.map_cons, Function.comp_apply, ih]
    rw [resolveOne_idem]

theorem resolveOne_request_id (rid item : String) (res : CallbackStatus)
    (pr : PendingRequest) :
    (resolveOne rid item res pr).request_id = pr.request_id := by
  unfold resolveOne
  by_cases h1 : (pr.request_id == rid) = true
  · by_cases h2 : pr.hasResult item = true
    · simp [h1, h2]
    · by_cases h3 : item ∈ pr.submitted_identifiers
      · simp [h1, h2, h3]
      · simp [h1, h2, h3]
  · simp [h1]

theorem requestIds_resolve (s : CorrelatorState) (rid item : String)
    (res : CallbackStatus) :
    requestIds (resolve s rid item res) = requestIds s := by
  obtain ⟨l⟩ := s
  simp only [requestIds, resolve, List.map_map]
  induction l with
  | nil => rfl
  | cons pr l ih =>
    simp only [List.map_cons, Function.comp_apply, ih]
    rw [resolveOne_request_id]

/-- Claim C7: `register` fails with DuplicateRequestID whenever the request
id is already pending (so existing pending state is never overwritten), and
in every reachable correlator state the pending request ids are pairwise
distinct — each id maps to at most one `PendingRequest`. -/
theorem C7_register_unique (s : CorrelatorState) (rid : String)
    (ids : List String) :
    ((∃ p ∈ s.pending, p.request_id = rid) →
        register s rid ids = .duplicateRequestID) ∧
    (CorrReachable s → (requestIds s).Nodup) := by
  constructor
  · rintro ⟨p, hp, hpid⟩
    unfold register
    have hany : (s.pending.any fun p => p.request_id == rid) = true := by
      rw [List.any_eq_true]
      exact ⟨p, hp, by simp [hpid]⟩
    rw [if_pos hany]
  · intro h
    induction h with
    | init => simp [requestIds]
    | @registered s s' rid' ids' _ hok ih =>
      unfold register at hok
      by_cases hany : (s.pending.any fun p => p.request_id == rid') = true
      · rw [if_pos hany] at hok
        exact absurd hok (by simp)
      · rw [if_neg hany] at hok
        injection hok with hok
        subst hok
        simp only [requestIds, List.map_append, List.map_cons, List.map_nil]
        rw [List.nodup_append]
        refine ⟨ih, List.nodup_singleton _, ?_⟩
        intro a ha hb
        simp only [List.mem_singleton] at hb
        subst hb
        rw [Bool.not_eq_true, List.any_eq_false] at hany
        simp only [requestIds, List.mem_map] at ha
        obtain ⟨p, hp, hpid⟩ := ha
        exact absurd (by simp [hpid]) (hany p hp)
    | resolved rid' item res _ ih =>
      rw [requestIds_resolve]
      exact ih

/-- Witness for C7: registering an already-pending id is refused, and the
initial state's ids are duplicate-free. -/
theorem C7_register_unique_witness :
    register ⟨[⟨"r1", ["a"], []⟩]⟩ "r1" ["b"] = .duplicateRequestID ∧
    (requestIds ⟨[]⟩).Nodup :=
  ⟨(C7_register_unique ⟨[⟨"r1", ["a"], []⟩]⟩ "r1" ["b"]).1
      ⟨⟨"r1", ["a"], []⟩, by decide, rfl⟩,
   (C7_register_unique ⟨[]⟩ "r0" []).2 CorrReachable.init⟩

theorem redeem_consumed (s : ScrollState) (sid : String) (now' : Nat) :
    redeem (consume s sid) sid now' = .cursorUnknown := by
  unfold redeem consume
  have hnone : ((s.cursors.filter fun c => !(c.scroll_id == sid)).find?
      (fun c => c.scroll_id == sid)) = none := by
    rw [List.find?_eq_none]
    intro x hx
    have hpx := (List.mem_filter.mp hx).2
    simp only [Bool.not_eq_eq_eq_not, Bool.not_true] at hpx
    simp [hpx]
  rw [hnone]

/-- Claim C3: a cursor redeemed within 15 seconds of issuance succeeds and is
consumed; every subsequent redemption of the same cursor fails with
CursorUnknown, even within the TTL; and a redemption of a never-redeemed
cursor more than 15 seconds after issuance fails with CursorExpired. -/
theorem C3_cursor_lifecycle (s : ScrollState) (c : ScrollCursor) (now : Nat)
    (hfind : s.cursors.find? (fun k => k.scroll_id == c.scroll_id) = some c)
    (httl : c.ttl_seconds = scrollTTL) :
    (now ≤ c.issued_at + 15 →
        redeem s c.scroll_id now = .ok c.request_id (consume s c.scroll_id) ∧
        ∀ now', redeem (consume s c.scroll_id) c.scroll_id now'
          = .cursorUnknown) ∧
    (c.issued_at + 15 < now → redeem s c.scroll_id now = .cursorExpired) := by
  constructor
  · intro hle
    refine ⟨?_, fun now' => redeem_consumed s c.scroll_id now'⟩
    simp only [redeem, hfind, httl, scrollTTL]
    rw [if_neg (by omega)]
  · intro hgt
    simp only [redeem, hfind, httl, scrollTTL]
    rw [if_pos (by omega)]

/-- Witness for C3: a cursor issued at t=0 redeems at t=10 and is consumed,
re-redemption is unknown, and at t=16 a fresh copy is expired. -/
theorem C3_cursor_lifecycle_witness :
    redeem ⟨[⟨"s1", "r1", 0, 15⟩]⟩ "s1" 10
      = .ok "r1" (consume ⟨[⟨"s1", "r1", 0, 15⟩]⟩ "s1") ∧
    redeem (consume ⟨[⟨"s1", "r1", 0, 15⟩]⟩ "s1") "s1" 12 = .cursorUnknown ∧
    redeem ⟨[⟨"s1", "r1", 0, 15⟩]⟩ "s1" 16 = .cursorExpired := by
  have h10 := C3_cursor_lifecycle ⟨[⟨"s1", "r1", 0, 15⟩]⟩ ⟨"s1", "r1", 0, 15⟩ 10
    (by decide) rfl
  have h16 := C3_cursor_lifecycle ⟨[⟨"s1", "r1", 0, 15⟩]⟩ ⟨"s1", "r1", 0, 15⟩ 16
    (by decide) rfl
  exact ⟨(h10.1 (by decide)).1, (h10.1 (by decide)).2 12, h16.2 (by decide)⟩

theorem reserve_granted_inv (s s' : RateState) (n : Nat) (p : Pool)
    (h : reserve s n p = .granted s') :
    s'.items_in_window = s.items_in_window + n ∧
    s.items_in_window + n ≤ windowCeiling := by
  unfold reserve at h
  by_cases h1 : windowCeiling < s.items_in_window + n
  · rw [if_pos h1] at h
    exact absurd h (by simp)
  · rw [if_neg h1] at h
    by_cases h2 : poolRemaining s p < n
    · rw [if_pos h2] at h
      exact absurd h (by simp)
    · rw [if_neg h2] at h
      injection h with h
      subst h
      exact ⟨rfl, by omega⟩

/-- Claim C5: in every reachable rate state the rolling-window item count is
at most the 600-item ceiling — a reservation that would push it above the
ceiling is never granted — and a reserve call whose item count exceeds the
remaining window budget is deferred with backoff guidance, neither granted
nor rejected. -/
theorem C5_window_budget (s : RateState) :
    (RateReachable s → s.items_in_window ≤ windowCeiling) ∧
    (∀ n p, windowCeiling < s.items_in_window + n →
        reserve s n p = .deferred 60 ∧
        (∀ s', reserve s n p ≠ .granted s') ∧
        (∀ reason, reserve s n p ≠ .rejected reason)) := by
  constructor
  · intro h
    induction h with
    | init wc woc => exact Nat.zero_le _
    | @granted s s' n p _ hok ih =>
      have hinv := reserve_granted_inv s s' n p hok
      omega
    | rolled _ ih => exact Nat.zero_le _
  · intro n p hover
    have hdef : reserve s n p = .deferred 60 := by
      unfold reserve
      rw [if_pos hover]
    refine ⟨hdef, fun s' hgr => ?_, fun reason hrej => ?_⟩
    · rw [hdef] at hgr
      exact absurd hgr (by simp)
    · rw [hdef] at hrej
      exact absurd hrej (by simp)

/-- Witness for C5: the fresh window respects the ceiling, and a reservation
overflowing a full window is deferred. -/
theorem C5_window_budget_witness :
    (⟨0, 1000, 1000, 0⟩ : RateState).items_in_window ≤ windowCeiling ∧
    reserve ⟨600, 1000, 1000, 0⟩ 1 Pool.withContact = .deferred 60 :=
  ⟨(C5_window_budget ⟨0, 1000, 1000, 0⟩).1 (RateReachable.init 1000 1000),
   ((C5_window_budget ⟨600, 1000, 1000, 0⟩).2 1 Pool.withContact (by decide)).1⟩

/-- Claim C6: `ingest` validates each entry's status against the closed set
{success, failed, credits_are_over, timeout_exceeded, duplicate_query}; an
entry with a status outside the set is rejected — and only it — while every
valid-status entry of the batch is still accepted, and the batch as a whole
never fails: every entry is accounted for in the report. -/
theorem C6_ingest_per_item (items : List CallbackEntry) (e : CallbackEntry)
    (he : e ∈ items) (hbad : validStatuses.contains e.status = false) :
    e ∈ (ingest items).rejected ∧
    e ∉ (ingest items).accepted ∧
    (∀ g ∈ items, validStatuses.contains g.status = true →
        g ∈ (ingest items).accepted) ∧
    (ingest items).accepted.length + (ingest items).rejected.length
      = items.length := by
  refine ⟨?_, ?_, ?_, ?_⟩
  · exact List.mem_filter.mpr ⟨he, by simpa using hbad⟩
  · intro hmem
    have hgood := (List.mem_filter.mp hmem).2
    rw [hbad] at hgood
    exact absurd hgood (by simp)
  · intro g hg hgood
    exact List.mem_filter.mpr ⟨hg, hgood⟩
  · have hperm :=
      (List.filter_append_perm (fun x => validStatuses.contains x.status) items).length_eq
    simpa [ingest, List.length_append] using hperm

/-- Witness for C6: a two-entry batch with one bogus status rejects only that
entry and accepts the other. -/
theorem C6_ingest_per_item_witness :
    (⟨"bogus", "x", none⟩ : CallbackEntry)
      ∈ (ingest [⟨"success", "a", none⟩, ⟨"bogus", "x", none⟩]).rejected ∧
    (⟨"success", "a", none⟩ : CallbackEntry)
      ∈ (ingest [⟨"success", "a", none⟩, ⟨"bogus", "x", none⟩]).accepted := by
  have h := C6_ingest_per_item [⟨"success", "a", none⟩, ⟨"bogus", "x", none⟩]
    ⟨"bogus", "x", none⟩ (by decide) (by decide)
  exact ⟨h.1, h.2.2.1 ⟨"success", "a", none⟩ (by decide) (by decide)⟩

/-- Claim C9: for every uid, reading `signalhire://contacts/{uid}` raises an
error (a NameError on the unbound module-level name `cache`) and never
returns a cached candidate, even when `state.cache` holds a contact for that
uid. -/
theorem C9_cached_contact_name_error (stateCache : String → Option String)
    (uid c : String) (hc : stateCache uid = some c) :
    get_cached_contact stateCache uid = .nameErr "cache" ∧
    ∀ c', get_cached_contact stateCache uid ≠ .ok c' := by
  have hg : serverGlobals.contains "cache" = false := by decide
  constructor
  · unfold get_cached_contact
    rw [hg]
    simp
  · intro c' hok
    unfold get_cached_contact at hok
    rw [hg] at hok
    simp at hok

/-- Witness for C9: a cache holding uid123 still yields the NameError. -/
theorem C9_cached_contact_name_error_witness :
    get_cached_contact
      (fun u => if u = "uid123" then some "candidate" else none) "uid123"
      = .nameErr "cache" :=
  (C9_cached_contact_name_error
    (fun u => if u = "uid123" then some "candidate" else none)
    "uid123" "candidate" (by simp)).1

/-- Claim C10: `enrich_linkedin_profile` first queries the with-contact
credit pool via `check_credits`; given a successful credits response it
raises "Insufficient credits" exactly when the reported balance is below 1,
and otherwise (with a successful reveal) returns a result whose
`credits_remaining` equals the reported balance minus 1, computed locally
from the balance alone. -/
theorem C10_enrich_credits (url : String)
    (creditsResp : APIResponse CreditsPayload)
    (revealResp : APIResponse RevealPayload)
    (hc : creditsResp.success = true) :
    (enrich_linkedin_profile url creditsResp revealResp
        = .error .insufficientCredits ↔ creditsOf creditsResp.data < 1) ∧
    (1 ≤ creditsOf creditsResp.data → revealResp.success = true →
        enrich_linkedin_profile url creditsResp revealResp
          = .ok ⟨revealResp.data.request_id, url, "processing",
                 creditsOf creditsResp.data - 1⟩) := by
  unfold enrich_linkedin_profile check_credits reveal_contact
  rw [hc]
  by_cases hlt : creditsOf creditsResp.data < 1
  · constructor
    · simp [hlt]
    · intro hge
      omega
  · constructor
    · simp only [if_true]
      by_cases hr : revealResp.success = true
      · rw [hr]
        simp [hlt]
      · rw [Bool.not_eq_true] at hr
        rw [hr]
        simp [hlt]
    · intro hge hr
      rw [hr]
      simp [hlt]

/-- Witness for C10: a zero balance raises Insufficient credits. -/
theorem C10_enrich_credits_witness :
    enrich_linkedin_profile "https://linkedin.com/in/x"
      ⟨true, ⟨some 0⟩, ""⟩ ⟨true, ⟨some "r9"⟩, ""⟩
      = .error .insufficientCredits :=
  (C10_enrich_credits "https://linkedin.com/in/x"
      ⟨true, ⟨some 0⟩, ""⟩ ⟨true, ⟨some "r9"⟩, ""⟩ rfl).1.mpr (by decide)

end SignalHire
